import Mathlib

/-!
Verification development for the data-lake ETL pipeline (src/etl.py).
The Python functions are shallowly embedded as Lean definitions; machine
integers are modelled as Int/Nat, fallible code as Except, and the object
store as an explicit list of listing responses.
-/

namespace Etl

/-! ## ObjectLister: json_files (src/etl.py lines 25-50)

The store is modelled as the sequence of responses that successive
list_objects_v2 calls return.  A response optionally carries a Contents
entry (a list of object keys; the entry is absent when the requested
page has no keys) and an IsTruncated flag; the continuation-token
mechanism is modelled by consuming the responses in order. -/

structure Page where
  contents : Option (List String)
  isTruncated : Bool
deriving DecidableEq

/-- The component of a key after the final slash, as pathlib computes it. -/
def lastComponent (cs : List Char) : List Char :=
  cs.foldl (fun acc c => if c = '/' then [] else acc ++ [c]) []

/-- Index of the last occurrence of a character in a list, if any. -/
def rfindIdx (c : Char) (cs : List Char) : Option Nat :=
  ((List.range cs.length).filter (fun i => cs.get? i = some c)).getLast?

/-- Embedding of pathlib.Path(key).suffix: the extension of the final
component, nonempty only when the final dot is neither the first nor the
last character of that component. -/
def pathSuffix (key : String) : String :=
  let name := lastComponent key.toList
  match rfindIdx '.' name with
  | some i => if 0 < i ∧ i + 1 < name.length then String.mk (name.drop i) else ""
  | none => ""

def isJsonKey (key : String) : Bool := pathSuffix key == ".json"

/-- The s3a locator the generator yields for one key. -/
def s3aPath (bucket key : String) : String := "s3a://" ++ bucket ++ "/" ++ key

/-- What one page contributes to the output: its keys filtered to the
.json suffix, each formatted as an s3a locator. -/
def pageYield (bucket : String) (keys : List String) : List String :=
  (keys.filter isJsonKey).map (s3aPath bucket)

inductive KErr where
  | contentsMissing
deriving DecidableEq

/-- Embedding of json_files forced by list(...): process responses in
order; a response without a Contents entry raises KeyError (modelled as
an error that discards all output, as list(generator) does); otherwise
yield the filtered keys of the page and continue exactly when the page
reports IsTruncated. -/
def jsonFilesRun (bucket : String) : List Page → Except KErr (List String)
  | [] => .ok []
  | p :: ps =>
    match p.contents with
    | none => .error .contentsMissing
    | some keys =>
      if p.isTruncated then
        (jsonFilesRun bucket ps).map (fun rest => pageYield bucket keys ++ rest)
      else
        .ok (pageYield bucket keys)

/-- The responses the loop actually fetches: it stops at the first
response that lacks Contents (KeyError) or reports not truncated. -/
def fetchedPages : List Page → List Page
  | [] => []
  | p :: ps =>
    match p.contents with
    | none => [p]
    | some _ => if p.isTruncated then p :: fetchedPages ps else [p]

/-- A well-formed paginated listing: every response carries Contents,
every response before the last reports truncated, and the last reports
not truncated. -/
inductive WFStore : List Page → Prop
  | last (keys : List String) : WFStore [⟨some keys, false⟩]
  | cons (keys : List String) (ps : List Page) :
      WFStore ps → WFStore (⟨some keys, true⟩ :: ps)

/-- All keys of a store, in page order. -/
def allKeys (ps : List Page) : List String :=
  ps.flatMap (fun p => p.contents.getD [])

/-- A concrete two-page store used to instantiate the listing theorems. -/
def demoPages : List Page :=
  [⟨some ["log_data/a.json", "log_data/b.txt"], true⟩,
   ⟨some ["log_data/c.json"], false⟩]

/-! ## Row schemas (src/etl.py lines 86-101 and 124-177)

EventRec models one log record, with the fields the queries reference;
SongRec models one song record.  Numeric JSON fields that the pipeline
only carries (duration, latitude, longitude) are modelled as Rat, the
nullable coordinates as Option. -/

structure EventRec where
  page : String
  ts : Int
  userId : String
  firstName : String
  lastName : String
  gender : String
  level : String
  song : String
  sessionId : Int
  location : String
  userAgent : String
deriving DecidableEq

structure SongRec where
  song_id : String
  title : String
  artist_id : String
  year : Int
  duration : Rat
  artist_name : String
  artist_location : String
  artist_latitude : Option Rat
  artist_longitude : Option Rat
deriving DecidableEq

/-- Output row of the users table (SELECT DISTINCT at lines 129-134). -/
structure UserRow where
  user_id : String
  first_name : String
  last_name : String
  gender : String
  level : String
deriving DecidableEq

/-- Output row of the songs table (SELECT DISTINCT at line 87). -/
structure SongRow where
  song_id : String
  title : String
  artist_id : String
  year : Int
  duration : Rat
deriving DecidableEq

/-- Output row of the artists table (SELECT DISTINCT at lines 93-98). -/
structure ArtistRow where
  artist_id : String
  name : String
  location : String
  latitude : Option Rat
  longitude : Option Rat
deriving DecidableEq

/-- Output row of the time table (SELECT at lines 148-155); start_time
records the instant of the datetime column as epoch milliseconds. -/
structure TimeRow where
  start_time : Int
  hour : Int
  day : Int
  week : Int
  month : Int
  year : Int
  weekday : Int
deriving DecidableEq

/-- Output row of the songplays table minus the synthetic id column
(SELECT at lines 165-177); the id is attached by assignIds. -/
structure PlayRow where
  start_time : Int
  user_id : String
  level : String
  song_id : String
  artist_id : String
  session_id : Int
  location : String
  user_agent : String
  year : Int
  month : Int
deriving DecidableEq

/-! ## Calendar derivation (src/etl.py lines 140, 148-155)

Line 140 turns the epoch-millisecond column ts into an absolute instant;
the SQL functions hour, day, weekofyear, month, year, dayofweek then
evaluate that instant in the session time zone, which the engine takes
from the environment.  The zone is modelled as an offset in minutes; a
run with UTC has offset 0.  Dates use the proleptic Gregorian civil
calendar (standard days-from-epoch conversion); Int division here is
Euclidean, which agrees with floor division for the positive divisors
used. -/

/-- Civil date (year, month, day) of a day count since 1970-01-01. -/
def civilFromDays (days : Int) : Int × Int × Int :=
  let z := days + 719468
  let era := z / 146097
  let doe := z - era * 146097
  let yoe := (doe - doe / 1460 + doe / 36524 - doe / 146096) / 365
  let y := yoe + era * 400
  let doy := doe - (365 * yoe + yoe / 4 - yoe / 100)
  let mp := (5 * doy + 2) / 153
  let d := doy - (153 * mp + 2) / 5 + 1
  let m := if mp < 10 then mp + 3 else mp - 9
  (y + (if m ≤ 2 then 1 else 0), m, d)

/-- Day count since 1970-01-01 of a civil date. -/
def daysFromCivil (y m d : Int) : Int :=
  let y2 := if m ≤ 2 then y - 1 else y
  let era := y2 / 400
  let yoe := y2 - era * 400
  let mp := if 2 < m then m - 3 else m + 9
  let doy := (153 * mp + 2) / 5 + d - 1
  let doe := yoe * 365 + yoe / 4 - yoe / 100 + doy
  era * 146097 + doe - 719468

/-- January 1 weekday anchor used by the ISO week-count rule. -/
def pYear (y : Int) : Int := (y + y / 4 - y / 100 + y / 400) % 7

/-- Number of ISO weeks in a year (52 or 53). -/
def isoWeeksInYear (y : Int) : Int :=
  if pYear y = 4 ∨ pYear (y - 1) = 3 then 53 else 52

/-- ISO week number of a day count, as weekofyear computes it. -/
def weekOfYear (days : Int) : Int :=
  let c := civilFromDays days
  let doy := days - daysFromCivil c.1 1 1 + 1
  let wd := (days + 3) % 7 + 1
  let w := (10 + doy - wd) / 7
  if w < 1 then isoWeeksInYear (c.1 - 1)
  else if isoWeeksInYear c.1 < w then 1
  else w

/-- Calendar fields the time-table query derives from one ts value,
in the session zone given as a minute offset (lines 140, 148-155);
dayofweek counts 1 = Sunday through 7 = Saturday. -/
def timeRow (tz : Int) (ts : Int) : TimeRow :=
  let localSec := ts / 1000 + tz * 60
  let days := localSec / 86400
  let secOfDay := localSec % 86400
  let c := civilFromDays days
  { start_time := ts
    hour := secOfDay / 3600
    day := c.2.2
    week := weekOfYear days
    month := c.2.1
    year := c.1
    weekday := (days + 4) % 7 + 1 }

/-! ## Table construction (src/etl.py lines 87-98, 124-177) -/

/-- Line 124: keep only NextSong events. -/
def nextSongOnly (events : List EventRec) : List EventRec :=
  events.filter (fun e => e.page == "NextSong")

/-- SELECT DISTINCT projection: map each row to its output-column tuple
and drop duplicate tuples. -/
def distinctProjection {α β : Type} [DecidableEq β] (f : α → β) (rows : List α) : List β :=
  (rows.map f).dedup

def userProj (e : EventRec) : UserRow :=
  ⟨e.userId, e.firstName, e.lastName, e.gender, e.level⟩

/-- Users table (lines 129-134): distinct user tuples of NextSong events. -/
def usersTable (events : List EventRec) : List UserRow :=
  distinctProjection userProj (nextSongOnly events)

def songProj (r : SongRec) : SongRow :=
  ⟨r.song_id, r.title, r.artist_id, r.year, r.duration⟩

/-- Songs table (line 87): distinct song tuples of the song records. -/
def songsTable (rows : List SongRec) : List SongRow :=
  distinctProjection songProj rows

def artistProj (r : SongRec) : ArtistRow :=
  ⟨r.artist_id, r.artist_name, r.artist_location, r.artist_latitude, r.artist_longitude⟩

/-- Artists table (lines 93-98): distinct artist tuples of the song records. -/
def artistsTable (rows : List SongRec) : List ArtistRow :=
  distinctProjection artistProj rows

/-- Time table (lines 148-155): one output row per NextSong event, no
DISTINCT in the query. -/
def timeTable (tz : Int) (events : List EventRec) : List TimeRow :=
  (nextSongOnly events).map (fun e => timeRow tz e.ts)

/-- One songplays row for a matched event-song pair (lines 165-175). -/
def playRow (tz : Int) (e : EventRec) (s : SongRow) : PlayRow :=
  { start_time := e.ts
    user_id := e.userId
    level := e.level
    song_id := s.song_id
    artist_id := s.artist_id
    session_id := e.sessionId
    location := e.location
    user_agent := e.userAgent
    year := (timeRow tz e.ts).year
    month := (timeRow tz e.ts).month }

/-- Songplays join (lines 176-177): the cross product of NextSong events
with the songs table restricted by the equality log_data.song =
songs.title, an inner equi-join on exact string equality. -/
def songplaysJoin (tz : Int) (events : List EventRec) (songs : List SongRow) : List PlayRow :=
  (nextSongOnly events).flatMap
    (fun e => (songs.filter (fun s => e.song == s.title)).map (playRow tz e))

/-- Modelled from the spec: the synthetic id generator of line 165 lives
in the engine, not in src/; per the spec, play_id is a monotonically
increasing identifier assigned at write time, restarting with each run.
Ids are assigned by position in the produced row list. -/
def assignIds (rows : List PlayRow) : List (Nat × PlayRow) := rows.enum

/-- Songplays table with its synthetic ids (lines 165-177). -/
def songplaysTable (tz : Int) (events : List EventRec) (songs : List SongRow) :
    List (Nat × PlayRow) :=
  assignIds (songplaysJoin tz events songs)

/-- Modelled from the spec: the JSON-line reader of lines 82 and 121 is
the engine's, not in src/; per the spec the reference behavior is abort
on the first malformed line.  A line is modelled by its parse outcome:
some record, or none for a malformed line. -/
def readRecords {α : Type} : List (Option α) → Except String (List α)
  | [] => .ok []
  | some r :: ls => (readRecords ls).map (fun rs => r :: rs)
  | none :: _ => .error "ParseError"

/-! ## Module-level name resolution and statement execution
(src/etl.py lines 1-14, 64-101, 104-180)

Python resolves a global name when the referencing statement runs; a
name that is neither a module binding nor a builtin raises NameError
there.  Each statement of the two pipeline functions is modelled by the
global names it references, plus the table name and partition columns
for the write statements; the statements are straight-line, so the
sequence is the same for every input. -/

inductive Stmt where
  | run (names : List String)
  | write (table : String) (cols : List String) (names : List String)
deriving DecidableEq

/-- Names bound at module level in src/etl.py (imports at lines 1-8 and
top-level definitions): to_timestamp is not among them. -/
def moduleNames : List String :=
  ["configparser", "os", "SparkSession", "col", "monotonically_increasing_id",
   "year", "month", "dayofmonth", "hour", "weekofyear", "date_format",
   "TimestampType", "DateType", "boto3", "pathlib", "config",
   "create_spark_session", "json_files", "bucket_name", "file_contents",
   "process_song_data", "process_log_data", "main"]

/-- Python builtins the statements reference. -/
def pyBuiltins : List String := ["list", "print", "len"]

def resolves (n : String) : Bool := (moduleNames ++ pyBuiltins).contains n

structure RunState where
  written : List (String × List String)
  err : Option String
deriving DecidableEq

/-- Execute one statement: a NameError already raised stops the run; a
statement referencing an unresolvable name raises NameError on it; a
write statement appends its table (with its partition columns). -/
def execStmt (st : RunState) (s : Stmt) : RunState :=
  if st.err.isSome then st else
  match s with
  | .run names =>
    match names.find? (fun n => !(resolves n)) with
    | some n => { st with err := some n }
    | none => st
  | .write t cols names =>
    match names.find? (fun n => !(resolves n)) with
    | some n => { st with err := some n }
    | none => { st with written := st.written ++ [(t, cols)] }

def runStmts (stmts : List Stmt) : RunState := stmts.foldl execStmt ⟨[], none⟩

/-- Statements of process_song_data (lines 78-101) in order: list the
files, read them, register the view, build and write songs (partitioned
by year, artist_id), build and write artists (unpartitioned). -/
def processSongDataStmts : List Stmt :=
  [.run ["bucket_name"],
   .run ["list", "json_files"],
   .run [],
   .run [],
   .run [],
   .write "songs" ["year", "artist_id"] ["os"],
   .run [],
   .write "artists" [] ["os"]]

/-- Statements of process_log_data (lines 116-180) in order: list and
read the files, filter to NextSong, register the view, build and write
users, build the datetime column (line 140), build the timestamp column
(line 143, referencing to_timestamp), re-register the view, build and
write time (partitioned by year, month), read the songs table back,
build and write songplays (partitioned by year, month). -/
def processLogDataStmts : List Stmt :=
  [.run ["bucket_name"],
   .run ["list", "json_files"],
   .run ["print", "len"],
   .run [],
   .run [],
   .run [],
   .run [],
   .write "users" [] ["os"],
   .run ["col", "TimestampType"],
   .run ["to_timestamp"],
   .run [],
   .run [],
   .write "time" ["year", "month"] ["os"],
   .run ["os"],
   .run [],
   .run [],
   .write "songplays" ["year", "month"] ["os"]]

/-- One run of process_log_data. -/
def processLogDataRun : RunState := runStmts processLogDataStmts

/-- One run of main: process_song_data then process_log_data over one
output tree (lines 183-189). -/
def pipelineRun : RunState := runStmts (processSongDataStmts ++ processLogDataStmts)

/-! ## Concrete records used to instantiate theorems -/

def eventA : EventRec :=
  { page := "NextSong"
    ts := 1542069000000
    userId := "1"
    firstName := "Ann"
    lastName := "Ames"
    gender := "F"
    level := "free"
    song := "Test Song"
    sessionId := 1
    location := "LA"
    userAgent := "UA" }

/-- A second event sharing the timestamp of eventA. -/
def eventB : EventRec := { eventA with userId := "2" }

/-- The same user as eventA after a subscription-level change. -/
def eventLevelChange : EventRec := { eventA with level := "paid" }

def matchEvent : EventRec := eventA

def noMatchEvent : EventRec := { eventA with song := "No Match" }

def demoCatalog : List SongRow := [⟨"S1", "Test Song", "A1", 2018, 205⟩]

end Etl

namespace Etl

lemma except_map_eq_error {α β γ : Type} (f : α → β) (x : Except γ α) (e : γ) :
    x.map f = .error e ↔ x = .error e := by
  cases x <;> simp [Except.map]

/-- C5: for a well-formed paginated listing, json_files succeeds and
yields exactly the keys with suffix .json, in order, formatted as s3a
locators — the result depends only on the concatenation of the pages, so
it is independent of how the keys are split — and when the key set has
no duplicates the yielded key set has none either. -/
theorem json_files_pagination_complete (bucket : String) (ps : List Page)
    (h : WFStore ps) :
    jsonFilesRun bucket ps
      = .ok (((allKeys ps).filter isJsonKey).map (s3aPath bucket))
    ∧ ((allKeys ps).Nodup → ((allKeys ps).filter isJsonKey).Nodup) := by
  induction h with
  | last keys =>
      refine ⟨?_, fun hn => List.Nodup.filter _ (by simpa [allKeys] using hn)⟩
      simp [jsonFilesRun, allKeys, pageYield]
  | cons keys ps hps ih =>
      refine ⟨?_, fun hn => List.Nodup.filter _ (by simpa [allKeys] using hn)⟩
      simp only [jsonFilesRun, ih.1, Except.map, allKeys, List.flatMap_cons,
        Option.getD_some, List.filter_append, List.map_append]
      rfl

/-- Witness for C5 at a concrete two-page store with mixed suffixes. -/
theorem json_files_pagination_complete_witness :
    jsonFilesRun "b" demoPages
      = .ok ["s3a://b/log_data/a.json", "s3a://b/log_data/c.json"] := by
  have h := (json_files_pagination_complete "b" demoPages
    (WFStore.cons _ _ (WFStore.last _))).1
  rw [h]
  exact congrArg Except.ok (by decide)

/-- C10: json_files raises KeyError exactly when some response the loop
fetches lacks a Contents entry; in particular an empty listing (a single
non-truncated response with no Contents, which is what the store returns
when the prefix matches zero keys) raises KeyError instead of yielding
an empty sequence. -/
theorem json_files_keyerror_iff :
    (∀ (bucket : String) (ps : List Page),
        jsonFilesRun bucket ps = .error .contentsMissing
          ↔ ∃ p ∈ fetchedPages ps, p.contents = none)
    ∧ jsonFilesRun "b" [⟨none, false⟩] = .error .contentsMissing := by
  constructor
  · intro bucket ps
    induction ps with
    | nil => simp [jsonFilesRun, fetchedPages]
    | cons p ps ih =>
        rcases p with ⟨contents, trunc⟩
        cases contents with
        | none => simp [jsonFilesRun, fetchedPages]
        | some keys =>
            cases trunc with
            | false => simp [jsonFilesRun, fetchedPages]
            | true =>
                have h1 : jsonFilesRun bucket (⟨some keys, true⟩ :: ps)
                    = Except.map (fun rest => pageYield bucket keys ++ rest)
                        (jsonFilesRun bucket ps) := rfl
                have h2 : fetchedPages (⟨some keys, true⟩ :: ps)
                    = ⟨some keys, true⟩ :: fetchedPages ps := rfl
                rw [h1, h2, except_map_eq_error, ih]
                simp
  · rfl

/-- C2 counterexample: the time-table query has no DISTINCT, so two
NextSong events sharing the epoch-millisecond value 1542069000000
produce two time rows over a single distinct timestamp, refuting one
row per distinct timestamp. -/
theorem time_table_duplicate_timestamp_counterexample :
    (timeTable 0 [eventA, eventB]).length = 2
    ∧ ((timeTable 0 [eventA, eventB]).map TimeRow.start_time).dedup
        = [1542069000000] := by
  constructor
  · rfl
  · decide

/-- C2 as amended: the time table contains one row per qualifying
NextSong event record, not per distinct timestamp — a shared timestamp
yields one row per event — and each row carries the calendar fields
derived from that event timestamp in the session zone. -/
theorem time_table_row_per_qualifying_event :
    ∀ (tz : Int) (events : List EventRec),
      (timeTable tz events).length = (nextSongOnly events).length
      ∧ (∀ r ∈ timeTable tz events,
            ∃ e ∈ events, e.page = "NextSong" ∧ r = timeRow tz e.ts)
      ∧ (∀ e ∈ events, e.page = "NextSong" → timeRow tz e.ts ∈ timeTable tz events) := by
  intro tz events
  refine ⟨List.length_map _ _, ?_, ?_⟩
  · intro r hr
    rcases List.mem_map.1 hr with ⟨e, he, rfl⟩
    rcases List.mem_filter.1 he with ⟨he1, he2⟩
    exact ⟨e, he1, by simpa using he2, rfl⟩
  · intro e he hpage
    exact List.mem_map.2
      ⟨e, List.mem_filter.2 ⟨he, by simpa using hpage⟩, rfl⟩

/-- C3 counterexample: the derived fields depend on the session time
zone, not on a fixed UTC zone — epoch 1546300799000 derives year 2018
when the session zone is UTC but year 2019 when it is UTC+01:00, so the
fields are not the same regardless of environment. -/
theorem time_derivation_zone_dependent_counterexample :
    (timeRow 0 1546300799000).year = 2018
    ∧ (timeRow 60 1546300799000).year = 2019 := by
  constructor <;> decide

/-- C3 as amended: the derivation is a pure function of the epoch value
and the session-zone offset, and for every real-world offset (within
fourteen hours of UTC, offset 0 included) epoch 1542069000000 derives
year 2018 and month 11. -/
theorem time_derivation_fixed_zone (tz : Int) (h1 : -840 ≤ tz) (h2 : tz ≤ 840) :
    (timeRow tz 1542069000000).year = 2018
    ∧ (timeRow tz 1542069000000).month = 11 := by
  have hyear : (timeRow tz 1542069000000).year
      = (civilFromDays ((1542069000000 / 1000 + tz * 60) / 86400)).1 := rfl
  have hmonth : (timeRow tz 1542069000000).month
      = (civilFromDays ((1542069000000 / 1000 + tz * 60) / 86400)).2.1 := rfl
  have hs : (1542069000000 : Int) / 1000 = 1542069000 := by decide
  have hcases : (1542069000000 / 1000 + tz * 60) / 86400 = 17847 ∨
      (1542069000000 / 1000 + tz * 60) / 86400 = (17848 : Int) := by
    have hlo : (17847 : Int) ≤ (1542069000000 / 1000 + tz * 60) / 86400 := by
      rw [hs]
      calc (17847 : Int) = 1542018600 / 86400 := by decide
        _ ≤ (1542069000 + tz * 60) / 86400 :=
            Int.ediv_le_ediv (by decide) (by omega)
    have hhi : (1542069000000 / 1000 + tz * 60) / 86400 ≤ (17848 : Int) := by
      rw [hs]
      calc (1542069000 + tz * 60) / 86400 ≤ 1542119400 / 86400 :=
            Int.ediv_le_ediv (by decide) (by omega)
        _ = 17848 := by decide
    omega
  rcases hcases with h | h
  · exact ⟨by rw [hyear, h]; decide, by rw [hmonth, h]; decide⟩
  · exact ⟨by rw [hyear, h]; decide, by rw [hmonth, h]; decide⟩

/-- Witness for C3 at the UTC offset 0. -/
theorem time_derivation_fixed_zone_witness :
    (timeRow 0 1542069000000).year = 2018
    ∧ (timeRow 0 1542069000000).month = 11 :=
  time_derivation_fixed_zone 0 (by decide) (by decide)

/-- C4: the songplays table is the inner equi-join of qualifying events
with the songs rows on exact, case-sensitive equality of the song title
— a row appears exactly for an event-song pair with equal title — a
matching event against the catalog row S1 carries song_id S1, and a
zero-match event yields the empty row list rather than any failure (the
join is a total function). -/
theorem songplays_inner_join :
    (∀ (tz : Int) (events : List EventRec) (songs : List SongRow) (p : PlayRow),
        p ∈ songplaysJoin tz events songs
          ↔ ∃ e ∈ events, e.page = "NextSong"
              ∧ ∃ s ∈ songs, e.song = s.title ∧ p = playRow tz e s)
    ∧ (songplaysJoin 0 [matchEvent] demoCatalog).map PlayRow.song_id = ["S1"]
    ∧ songplaysJoin 0 [noMatchEvent] demoCatalog = [] := by
  refine ⟨?_, by decide, by decide⟩
  intro tz events songs p
  constructor
  · intro hp
    rcases List.mem_flatMap.1 hp with ⟨e, he, hpe⟩
    rcases List.mem_filter.1 he with ⟨he1, he2⟩
    rcases List.mem_map.1 hpe with ⟨s, hs, rfl⟩
    rcases List.mem_filter.1 hs with ⟨hs1, hs2⟩
    exact ⟨e, he1, by simpa using he2, s, hs1, by simpa using hs2, rfl⟩
  · rintro ⟨e, he, hpage, s, hs, htitle, rfl⟩
    refine List.mem_flatMap.2
      ⟨e, List.mem_filter.2 ⟨he, by simpa using hpage⟩, ?_⟩
    exact List.mem_map.2 ⟨s, List.mem_filter.2 ⟨hs, by simpa using htitle⟩, rfl⟩

/-- C6: the distinct projection deduplicates by the identity of the full
output tuple — membership in the output coincides with membership among
the projected tuples and the output has no duplicate tuples — it is
idempotent on its own output, and two rows sharing the user_id key but
differing in level are both kept, shown on the users table and on the
songs table. -/
theorem distinct_projection_idempotent :
    (∀ events : List EventRec,
        distinctProjection id (usersTable events) = usersTable events)
    ∧ (∀ rows : List SongRec,
        distinctProjection id (songsTable rows) = songsTable rows)
    ∧ (∀ events : List EventRec, (usersTable events).Nodup)
    ∧ (∀ (events : List EventRec) (u : UserRow),
        u ∈ usersTable events ↔ u ∈ (nextSongOnly events).map userProj)
    ∧ usersTable [eventA, eventLevelChange]
        = [userProj eventA, userProj eventLevelChange] := by
  refine ⟨?_, ?_, ?_, ?_, by decide⟩
  · intro events
    simp [distinctProjection, usersTable, List.dedup_idem]
  · intro rows
    simp [distinctProjection, songsTable, List.dedup_idem]
  · intro events
    exact List.nodup_dedup _
  · intro events u
    exact List.mem_dedup

/-- C1: the statement sequence of process_log_data is straight-line, so
every run executes the same statements on every input: the run stops
with a NameError on to_timestamp at the statement that builds the
timestamp column (statement index 9, line 143), since to_timestamp is
neither a module binding nor a builtin; at that point users is the only
table written, and the time and songplays writes are never reached. -/
theorem process_log_data_name_error :
    processLogDataRun.err = some "to_timestamp"
    ∧ processLogDataRun.written.map Prod.fst = ["users"]
    ∧ processLogDataStmts.get? 9 = some (Stmt.run ["to_timestamp"])
    ∧ resolves "to_timestamp" = false := by
  refine ⟨?_, ?_, rfl, by decide⟩ <;> decide

/-- C7: the full pipeline run writes only songs (partitioned by year,
artist_id), artists and users (unpartitioned) before the NameError on
to_timestamp stops it, even though the statement list contains the time
and songplays writes with the partition columns year, month — so the
claimed five tables are never all written. -/
theorem pipeline_writes_three_tables :
    pipelineRun.written
      = [("songs", ["year", "artist_id"]), ("artists", []), ("users", [])]
    ∧ pipelineRun.err = some "to_timestamp"
    ∧ processLogDataStmts.contains (Stmt.write "time" ["year", "month"] ["os"]) = true
    ∧ processLogDataStmts.contains
        (Stmt.write "songplays" ["year", "month"] ["os"]) = true := by
  refine ⟨?_, ?_, by decide, by decide⟩ <;> decide

lemma readRecords_error_of_malformed {α : Type} (ls : List (Option α)) :
    none ∈ ls → readRecords ls = .error "ParseError" := by
  induction ls with
  | nil => intro h; cases h
  | cons l ls ih =>
      intro h
      cases l with
      | none => rfl
      | some r =>
          have h2 : none ∈ ls := by
            rcases List.mem_cons.1 h with h | h
            · cases h
            · exact h
          show (readRecords ls).map _ = _
          rw [ih h2]
          rfl

/-- C8: when some input line is malformed the reader aborts with a parse
error on the first malformed line, and no record list is produced for
downstream tables. -/
theorem read_records_abort_on_malformed (lines : List (Option EventRec))
    (h : none ∈ lines) :
    readRecords lines = .error "ParseError"
    ∧ ∀ rs, readRecords lines ≠ .ok rs := by
  have h1 := readRecords_error_of_malformed lines h
  exact ⟨h1, fun rs hc => by rw [h1] at hc; cases hc⟩

/-- Witness for C8 on a two-line object whose second line is malformed. -/
theorem read_records_abort_on_malformed_witness :
    none ∈ [some eventA, none]
    ∧ readRecords [some eventA, none] = .error "ParseError" :=
  ⟨by decide, (read_records_abort_on_malformed [some eventA, none] (by decide)).1⟩

/-- C9: within one run the songplay ids are assigned by position, so
they are pairwise distinct and strictly increasing in row order, and
they are exactly 0, 1, 2, and so on — every run over the same events
restarts the generator and reassigns the same values (id 0 recurs on a
rerun, shown concretely), so no uniqueness holds across runs. -/
theorem songplay_ids_distinct_increasing :
    (∀ (tz : Int) (events : List EventRec) (songs : List SongRow),
        ((songplaysTable tz events songs).map Prod.fst).Pairwise (· < ·)
        ∧ ((songplaysTable tz events songs).map Prod.fst).Nodup
        ∧ (songplaysTable tz events songs).map Prod.fst
            = List.range (songplaysJoin tz events songs).length)
    ∧ (songplaysTable 0 [matchEvent] demoCatalog).map Prod.fst = [0] := by
  constructor
  · intro tz events songs
    have h : (songplaysTable tz events songs).map Prod.fst
        = List.range (songplaysJoin tz events songs).length :=
      List.enum_map_fst _
    refine ⟨?_, ?_, h⟩
    · rw [h]; exact List.pairwise_lt_range _
    · rw [h]; exact List.nodup_range _
  · decide

end Etl
